import Mathlib

/-!
Shallow embedding of the Tech_care clinic data layer
(`src/backend/app/models.py`): calendar dates and times, the row types of
the seven tables, a database state, the insert operations with the declared
field validators and uniqueness constraints, the delete operations with the
declared `on_delete` foreign-key actions (CASCADE / SET_NULL), the derived
`Patient.age` property, and the custom `UserManager.create_user` /
`create_superuser` account-creation functions.
-/

namespace TechCare

/-- A calendar date, as in Python `datetime.date` (used by `DateField`). -/
structure Date where
  year : Int
  month : Nat
  day : Nat
deriving DecidableEq, Repr

/-- A time of day, as in Python `datetime.time` (used by `TimeField`). -/
structure Time where
  hour : Nat
  minute : Nat
deriving DecidableEq, Repr

/-- Python lexicographic comparison of `(month, day)` tuples, as in
`(today.month, today.day) < (born.month, born.day)` in `Patient.age`. -/
def tupleLt (a b : Nat × Nat) : Bool :=
  a.1 < b.1 || (a.1 == b.1 && a.2 < b.2)

/-- `Patient.age` (models.py lines 141-147):
`today.year - born.year - ((today.month, today.day) < (born.month, born.day))`.
Python booleans coerce to 0/1 in arithmetic; `date.today()` is passed in as
the `today` argument. -/
def Patient.age (today born : Date) : Int :=
  today.year - born.year - (if tupleLt (today.month, today.day) (born.month, born.day) then 1 else 0)

/-- The spec's wording of the age computation, for comparison with the
source-embedded `Patient.age`: the whole-years difference of the years,
decremented by one exactly when the current (month, day) pair
lexicographically precedes the birth (month, day) pair. -/
def age_spec (today born : Date) : Int :=
  if today.month < born.month ∨ (today.month = born.month ∧ today.day < born.day) then
    today.year - born.year - 1
  else
    today.year - born.year

end TechCare

namespace TechCare

/-- Modelled from the spec: "password is hashed, never stored in clear
text".  The hasher itself (`django.contrib.auth.hashers`, reached through
`AbstractUser.set_password`) is framework code not present in this
repository, so the stored form is modelled as a dedicated type whose only
inhabited constructors are a digest of the raw password and the unusable
marker that `set_password(None)` produces; the type has no constructor
holding the clear text itself. -/
inductive StoredPassword where
  | hashed (digestValue : Nat) : StoredPassword
  | unusable : StoredPassword
deriving DecidableEq, Repr

/-- Modelled from the spec: a concrete digest standing in for the
framework's password hash function. -/
def digest (raw : String) : Nat :=
  raw.toList.foldl (fun h c => (h * 31 + c.toNat) % 1000000007) 5381

/-- Modelled from the spec: `AbstractUser.set_password` stores a hash of a
supplied raw password and an unusable marker when the password is `None`. -/
def set_password (raw : Option String) : StoredPassword :=
  match raw with
  | none => StoredPassword.unusable
  | some r => StoredPassword.hashed (digest r)

/-- Split a character list at the LAST occurrence of `c`, as Python
`str.rsplit(c, 1)`: `none` when `c` does not occur. -/
def rsplitLast (c : Char) : List Char → Option (List Char × List Char)
  | [] => none
  | x :: xs =>
    match rsplitLast c xs with
    | some (a, b) => some (x :: a, b)
    | none => if x = c then some ([], xs) else none

/-- Python `str.strip()`: drop whitespace from both ends. -/
def pyStrip (l : List Char) : List Char :=
  ((l.dropWhile Char.isWhitespace).reverse.dropWhile Char.isWhitespace).reverse

/-- Modelled from the spec: "email is case/format normalized before
storage".  `BaseUserManager.normalize_email` is framework code not present
in this repository; it strips surrounding whitespace and lowercases the
part after the last `@`, leaving the email unchanged when it has no `@`. -/
def normalize_email (email : String) : String :=
  match rsplitLast '@' (pyStrip email.toList) with
  | none => email
  | some (name, domain) => String.mk (name ++ '@' :: domain.map Char.toLower)

/-- A row of the `User` table (models.py lines 30-77).  `username` is
removed; `email` is the unique login identifier.  Only the fields the
claims touch are carried; `user_type` is the role tag. -/
structure UserRow where
  email : String
  password : StoredPassword
  is_staff : Bool
  is_superuser : Bool
  is_active : Bool
  user_type : String
deriving DecidableEq, Repr

/-- The keyword arguments (`**extra_fields`) that `create_user` and
`create_superuser` receive: `none` means the caller did not supply the
field, matching Python `dict.setdefault` semantics. -/
structure ExtraFields where
  is_staff : Option Bool
  is_superuser : Option Bool
  is_active : Option Bool
  user_type : Option String
deriving DecidableEq, Repr

/-- A row of the `Patient` table (models.py lines 80-147). -/
structure PatientRow where
  id : Nat
  user : Nat
  gender : String
  date_of_birth : Date
  emergency_contact : String
  insurance_type : String
deriving DecidableEq, Repr

/-- A row of the `Doctor` table (models.py lines 150-213). -/
structure DoctorRow where
  id : Nat
  user : Nat
  specialization : String
  license_number : String
  years_of_experience : Nat
  accepting_new_patients : Bool
deriving DecidableEq, Repr

/-- A row of the `DiagnosisHistory` table (models.py lines 216-329):
one month's vital-sign snapshot for a patient.  `doctor` is nullable
(`null=True`, `on_delete=SET_NULL`); `patient` is required
(`on_delete=CASCADE`).  `temperature_value` is a real-valued field,
modelled as a rational. -/
structure DiagnosisHistory where
  id : Nat
  patient : Nat
  doctor : Option Nat
  month : String
  year : Nat
  blood_pressure_systolic_value : Nat
  blood_pressure_systolic_levels : String
  blood_pressure_diastolic_value : Nat
  blood_pressure_diastolic_levels : String
  heart_rate_value : Nat
  heart_rate_levels : String
  respiratory_rate_value : Nat
  respiratory_rate_levels : String
  temperature_value : ℚ
  temperature_levels : String
deriving DecidableEq, Repr

/-- A row of the `DiagnosticList` table (models.py lines 332-382). -/
structure DiagnosticList where
  id : Nat
  patient : Nat
  doctor : Option Nat
  name : String
  description : String
  status : String
  diagnosed_date : Option Date
deriving DecidableEq, Repr

/-- A row of the `LabResult` table (models.py lines 385-439).  `patient`
is required with `on_delete=CASCADE`; `doctor` is nullable with
`on_delete=SET_NULL`. -/
structure LabResult where
  id : Nat
  patient : Nat
  doctor : Option Nat
  name : String
  result_value : String
  result_unit : String
  reference_range : String
  status : String
  performed_date : Date
  reported_date : Option Date
  notes : String
deriving DecidableEq, Repr

/-- A row of the `Appointment` table (models.py lines 442-513).  Both
foreign keys are required (`null` not allowed): `patient` and `doctor` are
plain (non-optional) identifiers, both with `on_delete=CASCADE`. -/
structure Appointment where
  id : Nat
  patient : Nat
  doctor : Nat
  appointment_date : Date
  appointment_time : Time
  appointment_type : String
  reason : String
  status : String
  notes : String
deriving DecidableEq, Repr

/-- The relational store: the tables declared in models.py. -/
structure DB where
  users : List UserRow
  patients : List PatientRow
  doctors : List DoctorRow
  diagnosis_histories : List DiagnosisHistory
  diagnostics : List DiagnosticList
  lab_results : List LabResult
  appointments : List Appointment
deriving DecidableEq, Repr

/-- The empty database. -/
def DB.empty : DB :=
  { users := [], patients := [], doctors := [], diagnosis_histories := [],
    diagnostics := [], lab_results := [], appointments := [] }

/-- Errors surfaced by a write: a duplicate-unique-key rejection (named
after the violated constraint) or a field-validation failure. -/
inductive DbError where
  | uniqueViolation (constraintName : String) : DbError
  | validationError (msg : String) : DbError
deriving DecidableEq, Repr

/-- `UserManager.create_user` (models.py lines 12-19): reject a missing
(Python-falsy: `None` or empty) email, normalize the email, build the row
with the defaults of `AbstractUser` (`is_staff=False`, `is_superuser=False`,
`is_active=True`) for fields the caller did not pass, hash the password, and
save — the save hits the `unique=True` constraint on `User.email`
(models.py line 42), so a duplicate stored email fails the insert. -/
def create_user (db : DB) (email : Option String) (password : Option String)
    (extra : ExtraFields) : Except DbError DB :=
  match email with
  | none => Except.error (DbError.validationError "Users must have an email address")
  | some e =>
    if e = "" then
      Except.error (DbError.validationError "Users must have an email address")
    else
      let ne := normalize_email e
      if db.users.any (fun u => u.email == ne) then
        Except.error (DbError.uniqueViolation "app_user_email_key")
      else
        Except.ok { db with users := db.users ++
          [{ email := ne
             password := set_password password
             is_staff := extra.is_staff.getD false
             is_superuser := extra.is_superuser.getD false
             is_active := extra.is_active.getD true
             user_type := extra.user_type.getD "" }] }

/-- The `setdefault` calls of `create_superuser` (models.py lines 22-25):
fill `is_staff`, `is_superuser`, `is_active` with `True` and `user_type`
with `'admin'` exactly when the caller did not supply them. -/
def superuser_defaults (extra : ExtraFields) : ExtraFields :=
  { is_staff := some (extra.is_staff.getD true)
    is_superuser := some (extra.is_superuser.getD true)
    is_active := some (extra.is_active.getD true)
    user_type := some (extra.user_type.getD "admin") }

/-- `UserManager.create_superuser` (models.py lines 21-27): apply the
`setdefault` defaults to `extra_fields`, then delegate to `create_user`. -/
def create_superuser (db : DB) (email : Option String) (password : Option String)
    (extra : ExtraFields) : Except DbError DB :=
  create_user db email password (superuser_defaults extra)

/-- The field validators of `DiagnosisHistory` (models.py lines 245-302):
`year` 1900-2100, systolic 50-250, diastolic 30-150, heart rate 30-220,
respiratory rate 5-60, temperature 95.0-108.0; `MinValueValidator` /
`MaxValueValidator` are inclusive at both ends. -/
def diagnosisVitalsOk (r : DiagnosisHistory) : Bool :=
  (50 ≤ r.blood_pressure_systolic_value && r.blood_pressure_systolic_value ≤ 250) &&
  (30 ≤ r.blood_pressure_diastolic_value && r.blood_pressure_diastolic_value ≤ 150) &&
  (30 ≤ r.heart_rate_value && r.heart_rate_value ≤ 220) &&
  (5 ≤ r.respiratory_rate_value && r.respiratory_rate_value ≤ 60) &&
  ((95 : ℚ) ≤ r.temperature_value && r.temperature_value ≤ (108 : ℚ))

/-- All declared validators of a `DiagnosisHistory` record: the year range
together with the vital-sign ranges. -/
def diagnosisFieldsOk (r : DiagnosisHistory) : Bool :=
  (1900 ≤ r.year && r.year ≤ 2100) && diagnosisVitalsOk r

/-- Whether the `UniqueConstraint` on `(patient, month, year)` named
`unique_patient_diagnosis_history` (models.py lines 321-326) already has a
row occupying the new record's key. -/
def diagnosisKeyTaken (db : DB) (r : DiagnosisHistory) : Bool :=
  db.diagnosis_histories.any
    (fun s => s.patient == r.patient && s.month == r.month && s.year == r.year)

/-- Insert a `DiagnosisHistory` record: the field validators reject an
out-of-range value before persistence, and the storage-layer unique
constraint rejects a duplicate `(patient, month, year)` key. -/
def insertDiagnosisHistory (db : DB) (r : DiagnosisHistory) : Except DbError DB :=
  if !diagnosisFieldsOk r then
    Except.error (DbError.validationError "field value out of range")
  else if diagnosisKeyTaken db r then
    Except.error (DbError.uniqueViolation "unique_patient_diagnosis_history")
  else
    Except.ok { db with diagnosis_histories := db.diagnosis_histories ++ [r] }

/-- Whether the `UniqueConstraint` on `(doctor, appointment_date,
appointment_time)` named `unique_doctor_appointment_slot` (models.py lines
505-510) already has a row occupying the new appointment's slot.  The
status of the occupying row is not consulted. -/
def appointmentSlotTaken (db : DB) (a : Appointment) : Bool :=
  db.appointments.any
    (fun b => b.doctor == a.doctor && b.appointment_date == a.appointment_date &&
      b.appointment_time == a.appointment_time)

/-- Insert an `Appointment`: the storage-layer unique constraint rejects a
second appointment for the same doctor, date and time. -/
def insertAppointment (db : DB) (a : Appointment) : Except DbError DB :=
  if appointmentSlotTaken db a then
    Except.error (DbError.uniqueViolation "unique_doctor_appointment_slot")
  else
    Except.ok { db with appointments := db.appointments ++ [a] }

/-- Insert a `LabResult` (no unique constraint is declared on the table). -/
def insertLabResult (db : DB) (r : LabResult) : Except DbError DB :=
  Except.ok { db with lab_results := db.lab_results ++ [r] }

/-- Delete a `Doctor` row, applying the declared `on_delete` actions of
every foreign key that references `Doctor`:
`Appointment.doctor` is `CASCADE` (models.py lines 471-476), so the
referencing appointments are deleted; `DiagnosisHistory.doctor`,
`DiagnosticList.doctor` and `LabResult.doctor` are `SET_NULL`
(models.py lines 236-243, 351-358, 403-410), so the referencing rows are
kept with their doctor reference cleared. -/
def deleteDoctor (db : DB) (d : Nat) : DB :=
  { db with
    doctors := db.doctors.filter (fun r => r.id != d)
    appointments := db.appointments.filter (fun a => a.doctor != d)
    diagnosis_histories := db.diagnosis_histories.map
      (fun r => if r.doctor == some d then { r with doctor := none } else r)
    diagnostics := db.diagnostics.map
      (fun r => if r.doctor == some d then { r with doctor := none } else r)
    lab_results := db.lab_results.map
      (fun r => if r.doctor == some d then { r with doctor := none } else r) }

/-- Delete a `Patient` row, applying the declared `on_delete` actions of
every foreign key that references `Patient`: `DiagnosisHistory.patient`,
`DiagnosticList.patient`, `LabResult.patient` and `Appointment.patient` are
all `CASCADE`, so every referencing row is deleted. -/
def deletePatient (db : DB) (p : Nat) : DB :=
  { db with
    patients := db.patients.filter (fun r => r.id != p)
    appointments := db.appointments.filter (fun a => a.patient != p)
    diagnosis_histories := db.diagnosis_histories.filter (fun r => r.patient != p)
    diagnostics := db.diagnostics.filter (fun r => r.patient != p)
    lab_results := db.lab_results.filter (fun r => r.patient != p) }

/-- Concrete fixture: a scheduled appointment occupying doctor 1's
2024-07-01 09:00 slot. -/
def apptA : Appointment :=
  { id := 1, patient := 1, doctor := 1,
    appointment_date := ⟨2024, 7, 1⟩, appointment_time := ⟨9, 0⟩,
    appointment_type := "check_up", reason := "", status := "scheduled", notes := "" }

/-- Concrete fixture: a second patient trying the same doctor, date and
time as `apptA`. -/
def apptB : Appointment :=
  { id := 2, patient := 2, doctor := 1,
    appointment_date := ⟨2024, 7, 1⟩, appointment_time := ⟨9, 0⟩,
    appointment_type := "check_up", reason := "", status := "scheduled", notes := "" }

/-- Concrete fixture: the same patient, date and time as `apptA` but a
different doctor. -/
def apptC : Appointment :=
  { id := 3, patient := 1, doctor := 2,
    appointment_date := ⟨2024, 7, 1⟩, appointment_time := ⟨9, 0⟩,
    appointment_type := "consultation", reason := "", status := "scheduled", notes := "" }

/-- Concrete fixture: a store holding only `apptA`. -/
def dbA : DB := { DB.empty with appointments := [apptA] }

/-- Concrete fixture: a CANCELLED appointment occupying doctor 1's
2024-08-02 10:30 slot. -/
def apptCancelled : Appointment :=
  { id := 9, patient := 3, doctor := 1,
    appointment_date := ⟨2024, 8, 2⟩, appointment_time := ⟨10, 30⟩,
    appointment_type := "check_up", reason := "", status := "cancelled", notes := "" }

/-- Concrete fixture: a new appointment for the slot `apptCancelled`
occupies. -/
def apptNew : Appointment :=
  { id := 10, patient := 4, doctor := 1,
    appointment_date := ⟨2024, 8, 2⟩, appointment_time := ⟨10, 30⟩,
    appointment_type := "follow_up", reason := "", status := "scheduled", notes := "" }

/-- Concrete fixture: a store holding only the cancelled appointment. -/
def dbCancelled : DB := { DB.empty with appointments := [apptCancelled] }

/-- Concrete fixture: a January 2024 vitals record for patient 1, all
values in range. -/
def diagR1 : DiagnosisHistory :=
  { id := 1, patient := 1, doctor := some 1, month := "January", year := 2024,
    blood_pressure_systolic_value := 120, blood_pressure_systolic_levels := "normal",
    blood_pressure_diastolic_value := 80, blood_pressure_diastolic_levels := "normal",
    heart_rate_value := 70, heart_rate_levels := "normal",
    respiratory_rate_value := 16, respiratory_rate_levels := "normal",
    temperature_value := 98, temperature_levels := "normal" }

/-- Concrete fixture: a second record for the same patient, month and
year as `diagR1` (different measured values). -/
def diagR2 : DiagnosisHistory :=
  { id := 2, patient := 1, doctor := some 1, month := "January", year := 2024,
    blood_pressure_systolic_value := 130, blood_pressure_systolic_levels := "higher_than_average",
    blood_pressure_diastolic_value := 85, blood_pressure_diastolic_levels := "normal",
    heart_rate_value := 75, heart_rate_levels := "normal",
    respiratory_rate_value := 18, respiratory_rate_levels := "normal",
    temperature_value := 99, temperature_levels := "normal" }

/-- Concrete fixture: a record for the same patient and year as `diagR1`
but a different month. -/
def diagR3 : DiagnosisHistory :=
  { id := 3, patient := 1, doctor := some 1, month := "February", year := 2024,
    blood_pressure_systolic_value := 118, blood_pressure_systolic_levels := "normal",
    blood_pressure_diastolic_value := 78, blood_pressure_diastolic_levels := "normal",
    heart_rate_value := 68, heart_rate_levels := "normal",
    respiratory_rate_value := 15, respiratory_rate_levels := "normal",
    temperature_value := 98, temperature_levels := "normal" }

/-- Concrete fixture: a store holding only `diagR1`. -/
def dbDiag : DB := { DB.empty with diagnosis_histories := [diagR1] }

/-- Concrete fixture: a vitals record whose systolic value 49 is one
below the minimum bound 50 (all other values in range). -/
def diagBad : DiagnosisHistory :=
  { id := 4, patient := 1, doctor := some 1, month := "March", year := 2024,
    blood_pressure_systolic_value := 49, blood_pressure_systolic_levels := "critical_low",
    blood_pressure_diastolic_value := 80, blood_pressure_diastolic_levels := "normal",
    heart_rate_value := 70, heart_rate_levels := "normal",
    respiratory_rate_value := 16, respiratory_rate_levels := "normal",
    temperature_value := 98, temperature_levels := "normal" }

/-- Concrete fixture: a lab result for patient 1 attributed to doctor 1. -/
def labR : LabResult :=
  { id := 1, patient := 1, doctor := some 1, name := "Complete Blood Count",
    result_value := "5.1", result_unit := "M/uL", reference_range := "4.5-5.9",
    status := "normal", performed_date := ⟨2024, 7, 1⟩, reported_date := none,
    notes := "" }

/-- Concrete fixture: a store holding only `labR`. -/
def dbLab : DB := { DB.empty with lab_results := [labR] }

/-- Concrete fixture: extra keyword arguments with nothing supplied. -/
def extraNone : ExtraFields :=
  { is_staff := none, is_superuser := none, is_active := none, user_type := none }

/-- Concrete fixture: a stored account with the (already normalized)
email `alice@example.com`. -/
def userU : UserRow :=
  { email := "alice@example.com", password := StoredPassword.hashed (digest "pw1"),
    is_staff := false, is_superuser := false, is_active := true, user_type := "patient" }

/-- Concrete fixture: a store holding only `userU`. -/
def dbU : DB := { DB.empty with users := [userU] }

/-- Concrete fixture: the account row `create_user` builds from the email
`bob@Example.COM` (domain lowercased by normalization) and the password
`secret`, with no extra fields supplied. -/
def userBob : UserRow :=
  { email := "bob@example.com", password := StoredPassword.hashed (digest "secret"),
    is_staff := false, is_superuser := false, is_active := true, user_type := "" }

/-- Concrete fixture: the store after creating `userBob` in the empty
store. -/
def dbBob : DB := { DB.empty with users := [userBob] }

/-- Concrete fixture: the administrator row `create_superuser` builds
from the email `root@example.com` and the password `pw` with no extra
fields supplied: staff, superuser and active all default to true and the
role to `admin`. -/
def userRoot : UserRow :=
  { email := "root@example.com", password := StoredPassword.hashed (digest "pw"),
    is_staff := true, is_superuser := true, is_active := true, user_type := "admin" }

/-- Concrete fixture: the store after creating `userRoot` in the empty
store. -/
def dbRoot : DB := { DB.empty with users := [userRoot] }

theorem tupleLt_iff (a b : Nat × Nat) :
    tupleLt a b = true ↔ (a.1 < b.1 ∨ (a.1 = b.1 ∧ a.2 < b.2)) := by
  unfold tupleLt
  simp

/-- Claim C3: for every patient and every current date, `Patient.age`
equals the whole-years difference between the current year and the birth
year, decremented by one exactly when the current (month, day) pair
lexicographically precedes the birth (month, day) pair; for birth
2000-06-15 it returns 23 on 2024-06-14 and 24 on 2024-06-15. -/
theorem claim_C3_patient_age (today born : Date) :
    Patient.age today born = age_spec today born
    ∧ Patient.age ⟨2024, 6, 14⟩ ⟨2000, 6, 15⟩ = 23
    ∧ Patient.age ⟨2024, 6, 15⟩ ⟨2000, 6, 15⟩ = 24 := by
  refine ⟨?_, by decide, by decide⟩
  unfold Patient.age age_spec
  by_cases h : today.month < born.month ∨ (today.month = born.month ∧ today.day < born.day)
  · have hb := (tupleLt_iff (today.month, today.day) (born.month, born.day)).mpr h
    rw [if_pos h]
    simp [hb]
  · have hb : tupleLt (today.month, today.day) (born.month, born.day) = false := by
      rw [Bool.eq_false_iff]
      intro hc
      exact h ((tupleLt_iff (today.month, today.day) (born.month, born.day)).mp hc)
    rw [if_neg h]
    simp [hb]

/-- Claim C1: inserting two `Appointment` records with the same doctor,
the same `appointment_date` and the same `appointment_time` fails the
second insert with a uniqueness error, while inserting two appointments
for the same patient at the same date and time with two different doctors
succeeds (the second doctor's slot must, of course, not already be taken
in the starting store). -/
theorem claim_C1_appointment_double_booking
    (db db1 : DB) (a b c : Appointment)
    (ha : insertAppointment db a = Except.ok db1)
    (hbdoc : b.doctor = a.doctor)
    (hbdate : b.appointment_date = a.appointment_date)
    (hbtime : b.appointment_time = a.appointment_time)
    (hcdoc : c.doctor ≠ a.doctor)
    (hcpat : c.patient = a.patient)
    (hcdate : c.appointment_date = a.appointment_date)
    (hctime : c.appointment_time = a.appointment_time)
    (hcfree : appointmentSlotTaken db c = false) :
    insertAppointment db1 b
      = Except.error (DbError.uniqueViolation "unique_doctor_appointment_slot")
    ∧ insertAppointment db1 c
      = Except.ok { db1 with appointments := db1.appointments ++ [c] } := by
  unfold insertAppointment at ha
  by_cases hfree : appointmentSlotTaken db a = true
  · rw [if_pos hfree] at ha
    cases ha
  · rw [if_neg hfree] at ha
    have hdb1 : db1 = { db with appointments := db.appointments ++ [a] } :=
      (Except.ok.inj ha).symm
    subst hdb1
    have hb : appointmentSlotTaken { db with appointments := db.appointments ++ [a] } b
        = true := by
      unfold appointmentSlotTaken
      simp [List.any_append, hbdoc, hbdate, hbtime]
    have hc : appointmentSlotTaken { db with appointments := db.appointments ++ [a] } c
        = false := by
      unfold appointmentSlotTaken at hcfree ⊢
      simp only [List.any_append, List.any_cons, List.any_nil, Bool.or_false]
      simp only [hcfree, Bool.false_or]
      have : (a.doctor == c.doctor) = false := by
        simp [Ne.symm hcdoc]
      simp [this]
    constructor
    · unfold insertAppointment
      rw [if_pos hb]
    · unfold insertAppointment
      rw [if_neg (by simp [hc])]

/-- Claim C10: the uniqueness constraint on
`(doctor, appointment_date, appointment_time)` holds over all stored
`Appointment` rows regardless of their status — no hypothesis on
`a.status` appears below, so an occupying row whose status is
`cancelled`, `no_show` or `rescheduled` still blocks a new appointment
for the same doctor, date and time. -/
theorem claim_C10_slot_taken_regardless_of_status
    (db : DB) (a b : Appointment)
    (ha : a ∈ db.appointments)
    (hdoc : b.doctor = a.doctor)
    (hdate : b.appointment_date = a.appointment_date)
    (htime : b.appointment_time = a.appointment_time) :
    insertAppointment db b
      = Except.error (DbError.uniqueViolation "unique_doctor_appointment_slot") := by
  have htaken : appointmentSlotTaken db b = true := by
    unfold appointmentSlotTaken
    rw [List.any_eq_true]
    refine ⟨a, ha, ?_⟩
    simp [hdoc, hdate, htime]
  unfold insertAppointment
  rw [if_pos htaken]

/-- Claim C2: inserting two `DiagnosisHistory` records for the same
patient with the same month and the same year fails the second insert
with a uniqueness error; records for the same patient that differ in
month or in year are both accepted (given that their field values pass
the declared validators and the differing key is not already occupied in
the starting store). -/
theorem claim_C2_diagnosis_history_unique
    (db db1 : DB) (r1 r2 r3 : DiagnosisHistory)
    (h1 : insertDiagnosisHistory db r1 = Except.ok db1)
    (h2ok : diagnosisFieldsOk r2 = true)
    (h2pat : r2.patient = r1.patient)
    (h2mon : r2.month = r1.month)
    (h2yr : r2.year = r1.year)
    (h3ok : diagnosisFieldsOk r3 = true)
    (h3pat : r3.patient = r1.patient)
    (h3diff : r3.month ≠ r1.month ∨ r3.year ≠ r1.year)
    (h3free : diagnosisKeyTaken db r3 = false) :
    insertDiagnosisHistory db1 r2
      = Except.error (DbError.uniqueViolation "unique_patient_diagnosis_history")
    ∧ insertDiagnosisHistory db1 r3
      = Except.ok { db1 with diagnosis_histories := db1.diagnosis_histories ++ [r3] } := by
  unfold insertDiagnosisHistory at h1
  by_cases hv1 : diagnosisFieldsOk r1 = true
  · rw [if_neg (by simp [hv1])] at h1
    by_cases hk1 : diagnosisKeyTaken db r1 = true
    · rw [if_pos hk1] at h1
      cases h1
    · rw [if_neg hk1] at h1
      have hdb1 : db1 = { db with diagnosis_histories := db.diagnosis_histories ++ [r1] } :=
        (Except.ok.inj h1).symm
      subst hdb1
      have hk2 : diagnosisKeyTaken
          { db with diagnosis_histories := db.diagnosis_histories ++ [r1] } r2 = true := by
        unfold diagnosisKeyTaken
        simp [List.any_append, h2pat, h2mon, h2yr]
      have hk3 : diagnosisKeyTaken
          { db with diagnosis_histories := db.diagnosis_histories ++ [r1] } r3 = false := by
        unfold diagnosisKeyTaken at h3free ⊢
        simp only [List.any_append, List.any_cons, List.any_nil, Bool.or_false]
        simp only [h3free, Bool.false_or]
        rcases h3diff with hm | hy
        · have : (r1.month == r3.month) = false := by
            simp [Ne.symm hm]
          simp [this]
        · have : (r1.year == r3.year) = false := by
            simp [Ne.symm hy]
          simp [this]
      constructor
      · unfold insertDiagnosisHistory
        rw [if_neg (by simp [h2ok]), if_pos hk2]
      · unfold insertDiagnosisHistory
        rw [if_neg (by simp [h3ok]), if_neg (by simp [hk3])]
  · rw [if_pos (by simp [Bool.eq_false_iff.mpr hv1])] at h1
    cases h1

/-- Claim C4: every numeric vital-sign field of `DiagnosisHistory`
enforces its inclusive min/max bounds — the validators accept a record's
vitals exactly when systolic blood pressure is within 50-250, diastolic
within 30-150, heart rate within 30-220, respiratory rate within 5-60 and
temperature within 95.0-108.0 — and a record with any out-of-range vital
is rejected before persistence: the insert returns a validation error for
every starting store. -/
theorem claim_C4_vital_sign_bounds (r : DiagnosisHistory) (db : DB) :
    (diagnosisVitalsOk r = true ↔
      (50 ≤ r.blood_pressure_systolic_value ∧ r.blood_pressure_systolic_value ≤ 250 ∧
       30 ≤ r.blood_pressure_diastolic_value ∧ r.blood_pressure_diastolic_value ≤ 150 ∧
       30 ≤ r.heart_rate_value ∧ r.heart_rate_value ≤ 220 ∧
       5 ≤ r.respiratory_rate_value ∧ r.respiratory_rate_value ≤ 60 ∧
       (95 : ℚ) ≤ r.temperature_value ∧ r.temperature_value ≤ (108 : ℚ)))
    ∧ (diagnosisVitalsOk r = false →
        insertDiagnosisHistory db r
          = Except.error (DbError.validationError "field value out of range")) := by
  constructor
  · unfold diagnosisVitalsOk
    simp [and_assoc]
  · intro hbad
    have hfields : diagnosisFieldsOk r = false := by
      unfold diagnosisFieldsOk
      simp [hbad]
    unfold insertDiagnosisHistory
    rw [if_pos (by simp [hfields])]

/-- Claim C5: deleting a `Doctor` that is referenced by a `LabResult`
leaves the lab-result row in the store (the table's row count is
unchanged) with its doctor reference set to null and every other field
unchanged (the surviving row is literally `r` with only `doctor := none`),
whereas deleting a `Patient` referenced by a `LabResult` deletes the
lab-result row. -/
theorem claim_C5_lab_result_delete_rules
    (db : DB) (d p : Nat) (r : LabResult) (hr : r ∈ db.lab_results) :
    (deleteDoctor db d).lab_results.length = db.lab_results.length
    ∧ (r.doctor = some d → { r with doctor := none } ∈ (deleteDoctor db d).lab_results)
    ∧ (r.patient = p → r ∉ (deletePatient db p).lab_results) := by
  refine ⟨?_, ?_, ?_⟩
  · unfold deleteDoctor
    simp
  · intro hdoc
    unfold deleteDoctor
    simp only [List.mem_map]
    exact ⟨r, hr, by simp [hdoc]⟩
  · intro hpat hmem
    unfold deletePatient at hmem
    simp only [List.mem_filter] at hmem
    simp [hpat] at hmem

/-- Claim C9: deleting a `Doctor` deletes every `Appointment` that
references that doctor (cascade delete) — the surviving appointment list
is exactly the appointments of other doctors — unlike the set-null
behavior applied to `DiagnosisHistory`, `DiagnosticList` and `LabResult`,
whose row counts are unchanged and whose surviving rows never reference
the deleted doctor; the doctor reference on an `Appointment` is required
and never null (in the embedding `Appointment.doctor` is a plain
identifier with no null value, mirroring the non-nullable column). -/
theorem claim_C9_doctor_delete_cascades_appointments (db : DB) (d : Nat) :
    (deleteDoctor db d).appointments = db.appointments.filter (fun a => a.doctor != d)
    ∧ (∀ a ∈ (deleteDoctor db d).appointments, a.doctor ≠ d)
    ∧ (∀ a ∈ db.appointments, a.doctor ≠ d → a ∈ (deleteDoctor db d).appointments)
    ∧ (deleteDoctor db d).diagnosis_histories.length = db.diagnosis_histories.length
    ∧ (deleteDoctor db d).diagnostics.length = db.diagnostics.length
    ∧ (deleteDoctor db d).lab_results.length = db.lab_results.length
    ∧ (∀ r ∈ (deleteDoctor db d).diagnosis_histories, r.doctor ≠ some d)
    ∧ (∀ r ∈ (deleteDoctor db d).diagnostics, r.doctor ≠ some d)
    ∧ (∀ r ∈ (deleteDoctor db d).lab_results, r.doctor ≠ some d) := by
  refine ⟨rfl, ?_, ?_, ?_, ?_, ?_, ?_, ?_, ?_⟩
  · intro a hmem
    unfold deleteDoctor at hmem
    simp only [List.mem_filter] at hmem
    simpa using hmem.2
  · intro a hmem hne
    unfold deleteDoctor
    simp only [List.mem_filter]
    exact ⟨hmem, by simpa using hne⟩
  · unfold deleteDoctor
    simp
  · unfold deleteDoctor
    simp
  · unfold deleteDoctor
    simp
  · intro r hmem
    unfold deleteDoctor at hmem
    simp only [List.mem_map] at hmem
    rcases hmem with ⟨x, _, rfl⟩
    by_cases hx : x.doctor = some d
    · simp [hx]
    · simp [hx]
  · intro r hmem
    unfold deleteDoctor at hmem
    simp only [List.mem_map] at hmem
    rcases hmem with ⟨x, _, rfl⟩
    by_cases hx : x.doctor = some d
    · simp [hx]
    · simp [hx]
  · intro r hmem
    unfold deleteDoctor at hmem
    simp only [List.mem_map] at hmem
    rcases hmem with ⟨x, _, rfl⟩
    by_cases hx : x.doctor = some d
    · simp [hx]
    · simp [hx]

/-- Claim C6: creating an account fails with a validation error when the
email is missing (`None` or empty), and creating a second account whose
normalized email equals an existing account's stored (normalized) email
fails with a uniqueness error; in both failure cases the result is an
error, so no account is stored (an `Except.error` outcome carries no
updated store). -/
theorem claim_C6_create_user_failures
    (db : DB) (pw : Option String) (extra : ExtraFields)
    (email : Option String) (e : String) (u : UserRow) :
    (email = none ∨ email = some "" →
      create_user db email pw extra
        = Except.error (DbError.validationError "Users must have an email address"))
    ∧ (e ≠ "" → u ∈ db.users → u.email = normalize_email e →
        create_user db (some e) pw extra
          = Except.error (DbError.uniqueViolation "app_user_email_key")) := by
  constructor
  · rintro (rfl | rfl)
    · rfl
    · rfl
  · intro hne hu hmail
    have htaken : db.users.any (fun x => x.email == normalize_email e) = true := by
      rw [List.any_eq_true]
      exact ⟨u, hu, by simp [hmail]⟩
    simp [create_user, hne, htaken]

/-- Claim C7: creating a privileged (administrator) account sets
`is_staff`, `is_superuser` and `is_active` to true and the role
(`user_type`) to `admin` whenever the caller does not supply those fields
(`Option.getD` with the default is exactly Python `dict.setdefault`: a
supplied value is kept, a missing one becomes the default), and otherwise
behaves exactly like plain account creation: `create_superuser` is
`create_user` on the defaulted extra fields. -/
theorem claim_C7_create_superuser_defaults
    (db db2 : DB) (e : String) (pw : Option String) (extra : ExtraFields)
    (hok : create_superuser db (some e) pw extra = Except.ok db2) :
    create_superuser db (some e) pw extra
      = create_user db (some e) pw (superuser_defaults extra)
    ∧ db2.users = db.users ++
        [{ email := normalize_email e
           password := set_password pw
           is_staff := extra.is_staff.getD true
           is_superuser := extra.is_superuser.getD true
           is_active := extra.is_active.getD true
           user_type := extra.user_type.getD "admin" }] := by
  refine ⟨rfl, ?_⟩
  unfold create_superuser superuser_defaults at hok
  by_cases hne : e = ""
  · simp [create_user, hne] at hok
  · by_cases hdup : db.users.any (fun x => x.email == normalize_email e) = true
    · simp [create_user, hne, hdup] at hok
    · simp only [create_user, hne, hdup, if_false, if_true, Bool.false_eq_true,
        Except.ok.injEq, ite_false, ite_true] at hok
      subst hok
      simp

/-- Claim C8: for every account created via `create_user`, the stored
email is the normalization of the supplied email and the stored password
is the hash of the supplied password (`StoredPassword` has no clear-text
constructor, so the raw password is never stored in clear text). -/
theorem claim_C8_create_user_normalizes_and_hashes
    (db db2 : DB) (e : String) (pw : Option String) (extra : ExtraFields)
    (hok : create_user db (some e) pw extra = Except.ok db2) :
    ∃ u : UserRow, db2.users = db.users ++ [u]
      ∧ u.email = normalize_email e
      ∧ u.password = set_password pw
      ∧ ∀ raw, pw = some raw → u.password = StoredPassword.hashed (digest raw) := by
  by_cases hne : e = ""
  · simp [create_user, hne] at hok
  · by_cases hdup : db.users.any (fun x => x.email == normalize_email e) = true
    · simp [create_user, hne, hdup] at hok
    · simp only [create_user, hne, hdup, if_false, if_true, Bool.false_eq_true,
        Except.ok.injEq, ite_false, ite_true] at hok
      subst hok
      refine ⟨_, rfl, rfl, rfl, ?_⟩
      rintro raw rfl
      rfl

/-- Witness for claim C1 at concrete inputs: with doctor 1's slot taken
by `apptA`, the double-booking `apptB` is rejected and the same-patient,
different-doctor `apptC` is accepted. -/
theorem claim_C1_witness :
    insertAppointment dbA apptB
      = Except.error (DbError.uniqueViolation "unique_doctor_appointment_slot")
    ∧ insertAppointment dbA apptC
      = Except.ok { dbA with appointments := dbA.appointments ++ [apptC] } :=
  claim_C1_appointment_double_booking DB.empty dbA apptA apptB apptC
    rfl rfl rfl rfl (by decide) rfl rfl rfl rfl

/-- Witness for claim C10 at concrete inputs: the cancelled appointment
`apptCancelled` still blocks `apptNew` on the same doctor, date and
time. -/
theorem claim_C10_witness :
    insertAppointment dbCancelled apptNew
      = Except.error (DbError.uniqueViolation "unique_doctor_appointment_slot") :=
  claim_C10_slot_taken_regardless_of_status dbCancelled apptCancelled apptNew
    (by decide) rfl rfl rfl

/-- Witness for claim C2 at concrete inputs: with `diagR1` stored for
patient 1 / January / 2024, the duplicate-key `diagR2` is rejected and
the different-month `diagR3` is accepted. -/
theorem claim_C2_witness :
    insertDiagnosisHistory dbDiag diagR2
      = Except.error (DbError.uniqueViolation "unique_patient_diagnosis_history")
    ∧ insertDiagnosisHistory dbDiag diagR3
      = Except.ok { dbDiag with diagnosis_histories := dbDiag.diagnosis_histories ++ [diagR3] } :=
  claim_C2_diagnosis_history_unique DB.empty dbDiag diagR1 diagR2 diagR3
    rfl (by decide) rfl rfl rfl (by decide) rfl (Or.inl (by decide)) rfl

/-- Witness for claim C4 at concrete inputs: the record `diagBad` with
systolic value 49 fails the vital-sign validators and its insert is
rejected with a validation error. -/
theorem claim_C4_witness :
    diagnosisVitalsOk diagBad = false
    ∧ insertDiagnosisHistory DB.empty diagBad
        = Except.error (DbError.validationError "field value out of range") :=
  ⟨by decide, (claim_C4_vital_sign_bounds diagBad DB.empty).2 (by decide)⟩

/-- Witness for claim C5 at concrete inputs: deleting doctor 1 keeps the
lab-result table's row count and keeps `labR` with only its doctor
reference cleared, while deleting patient 1 removes `labR`. -/
theorem claim_C5_witness :
    (deleteDoctor dbLab 1).lab_results.length = dbLab.lab_results.length
    ∧ { labR with doctor := none } ∈ (deleteDoctor dbLab 1).lab_results
    ∧ labR ∉ (deletePatient dbLab 1).lab_results :=
  have h := claim_C5_lab_result_delete_rules dbLab 1 1 labR (by decide)
  ⟨h.1, h.2.1 rfl, h.2.2 rfl⟩

/-- Witness for claim C9 at concrete inputs: deleting doctor 2 (whom
`apptA` does not reference) keeps `apptA`, and deleting doctor 1 leaves
exactly the appointments of other doctors. -/
theorem claim_C9_witness :
    apptA ∈ (deleteDoctor dbA 2).appointments
    ∧ (deleteDoctor dbA 1).appointments
        = dbA.appointments.filter (fun a => a.doctor != 1) :=
  ⟨(claim_C9_doctor_delete_cascades_appointments dbA 2).2.2.1 apptA (by decide) (by decide),
   (claim_C9_doctor_delete_cascades_appointments dbA 1).1⟩

/-- Witness for claim C6 at concrete inputs: a missing email is rejected
with a validation error, and the email `alice@EXAMPLE.com`, whose
normalization equals stored `alice@example.com`, is rejected with a
uniqueness error. -/
theorem claim_C6_witness :
    create_user dbU none none extraNone
      = Except.error (DbError.validationError "Users must have an email address")
    ∧ create_user dbU (some "alice@EXAMPLE.com") none extraNone
      = Except.error (DbError.uniqueViolation "app_user_email_key") :=
  ⟨(claim_C6_create_user_failures dbU none extraNone none "alice@EXAMPLE.com" userU).1
      (Or.inl rfl),
   (claim_C6_create_user_failures dbU none extraNone none "alice@EXAMPLE.com" userU).2
      (by decide) (by decide) (by decide)⟩

/-- Witness for claim C7 at concrete inputs: creating a superuser with no
extra fields supplied stores a row with staff, superuser and active true
and role `admin`, and the call coincides with `create_user` on the
defaulted fields. -/
theorem claim_C7_witness :
    create_superuser DB.empty (some "root@example.com") (some "pw") extraNone
      = create_user DB.empty (some "root@example.com") (some "pw") (superuser_defaults extraNone)
    ∧ dbRoot.users = DB.empty.users ++ [userRoot] := by
  have h := claim_C7_create_superuser_defaults DB.empty dbRoot "root@example.com"
    (some "pw") extraNone (by rfl)
  exact ⟨h.1, h.2⟩

/-- Witness for claim C8 at concrete inputs: creating an account from the
email `bob@Example.COM` and the password `secret` stores exactly
`userBob`, whose email is the normalization (domain lowercased) of the
supplied email and whose password is the hash of `secret`. -/
theorem claim_C8_witness :
    dbBob.users = DB.empty.users ++ [userBob]
    ∧ userBob.email = normalize_email "bob@Example.COM"
    ∧ userBob.password = set_password (some "secret") := by
  obtain ⟨u, h1, h2, h3, -⟩ :=
    claim_C8_create_user_normalizes_and_hashes DB.empty dbBob "bob@Example.COM"
      (some "secret") extraNone (by rfl)
  have h5 : ([userBob] : List UserRow) = [u] := h1
  have hu : u = userBob := by
    simpa using h5.symm
  subst hu
  exact ⟨h1, h2, h3⟩

end TechCare
